import Mathlib

/-!
Verification of the mambo metric collector (banyek/mambo).

The repository holds two near-duplicate Go implementations of the same
program: `src/mambo.go` (embedded below at the top level of namespace
`Mambo`) and `src/src/mambo.go` (embedded in namespace `Mambo.SrcDup`,
only where the two differ in behaviour, namely configuration loading).

Modelling conventions:
* Go strings are Lean `String`; Go `int`/`int64` are Lean `Int`.
* The third-party libraries (`database/sql`, the statsd client, the ini
  reader, the logger) are external collaborators.  Their outcomes are
  supplied by small environment records (`DbEnv`, `SinkEnv`) or modelled
  by pure functions (`parseInt64` for `strconv.ParseInt(s, 10, 64)`,
  `goSplit` for `strings.Split` with a one-character separator, an
  association list for an ini section).  `strconv.ParseInt` returns the
  value 0 together with an error on a syntactically invalid input; the
  clamp-to-bounds behaviour on range overflow is not modelled, as no
  claim depends on it.
* Effects are made explicit: log lines become a `List String`, sends on
  the results channel become a `List String`, statsd calls become a
  `List SinkCall`, a Go run-time error (out-of-range index) becomes the
  `Except.error` branch of the function's result, and `os.Exit` becomes
  a dedicated constructor of the function's result type.
* The float literal `1.0` passed as the statsd sample rate is modelled
  as the rational number 1 (no floating-point arithmetic is performed
  on it anywhere in the program).
-/

namespace Mambo

/-- Go `strconv.ParseInt(s, 10, 64)` digit loop: fold decimal digits onto an
accumulator, failing on any non-digit character. -/
def decDigitsAux : List Char → Nat → Option Nat
  | [], acc => some acc
  | c :: cs, acc =>
    if ('0' ≤ c ∧ c ≤ '9') then
      decDigitsAux cs (acc * 10 + (c.toNat - '0'.toNat))
    else
      none

/-- Optional leading sign of a decimal integer literal, as accepted by Go
`strconv.ParseInt`: returns (negative?, remaining characters). -/
def parseSign : List Char → Bool × List Char
  | '-' :: rest => (true, rest)
  | '+' :: rest => (false, rest)
  | cs => (false, cs)

/-- Model of Go `strconv.ParseInt(s, 10, 64)`: optional sign, then one or
more decimal digits, value within the signed 64-bit range; `none` on any
parse failure (the Go function then returns value 0 plus an error). -/
def parseInt64 (s : String) : Option Int :=
  let sg := parseSign s.data
  match sg.2 with
  | [] => none
  | _ :: _ =>
    match decDigitsAux sg.2 0 with
    | none => none
    | some n =>
      let v : Int := if sg.1 then -(n : Int) else (n : Int)
      if (-(2 ^ 63) ≤ v ∧ v ≤ 2 ^ 63 - 1) then some v else none

/-- Model of Go `strings.Split` restricted to a one-character separator,
working on the character list: splits at every occurrence of the
separator.  `strings.Split("", sep)` is `[""]`, as in Go. -/
def splitOnChar (sep : Char) : List Char → List (List Char)
  | [] => [[]]
  | c :: cs =>
    if c = sep then
      [] :: splitOnChar sep cs
    else
      match splitOnChar sep cs with
      | [] => [[c]]
      | y :: ys => (c :: y) :: ys

/-- Go `strings.Split(s, sep)` for a one-character separator. -/
def goSplit (sep : Char) (s : String) : List String :=
  (splitOnChar sep s.data).map String.mk

/-- `type configuration struct` of src/mambo.go. -/
structure configuration where
  mysqlHost : String
  mysqlUser : String
  mysqlPass : String
  mysqlDb : String
  mysqlPort : Int
  statsdHost : String
  statsdPort : Int
deriving DecidableEq

/-- `type command struct` of src/mambo.go: one probe. -/
structure command where
  key : String
  query : String
  freq : Int
deriving DecidableEq

/-- One section of the parsed ini file: its name and its key/value pairs
(the ini reader is an external collaborator; a section behaves as a
string-to-string lookup, an absent key reading as the empty string). -/
structure IniSection where
  name : String
  entries : List (String × String)
deriving DecidableEq

/-- `section.Key(k).String()` of the ini library: the raw value, or the
empty string when the key is absent. -/
def IniSection.keyString (sec : IniSection) (k : String) : String :=
  match sec.entries.find? (fun p => p.1 == k) with
  | some p => p.2
  | none => ""

/-- `section.Key(k).Int()` of the ini library: parse the raw value as an
integer; on failure the returned value is 0 and the Bool flags the
error. -/
def IniSection.keyInt (sec : IniSection) (k : String) : Int × Bool :=
  match parseInt64 (sec.keyString k) with
  | some v => (v, false)
  | none => (0, true)

/-- `var cfg configuration` zero value, as left by Go before the config
section is seen. -/
def emptyConfiguration : configuration :=
  { mysqlHost := "", mysqlUser := "", mysqlPass := "", mysqlDb := "",
    mysqlPort := 0, statsdHost := "", statsdPort := 0 }

/-- Body of the `[config]` branch of `configure` (src/mambo.go lines
181-204): read the connection fields, apply the port defaults (0 maps to
3306 and 8125), and build the configuration.  Note this implementation
reads the statsd port from the key named stats_port. -/
def readConfigSection (sec : IniSection) : configuration :=
  let mysqlHostc := sec.keyString "mysql_host"
  let mysqlUserc := sec.keyString "mysql_user"
  let mysqlPassc := sec.keyString "mysql_pass"
  let mysqlDbc := sec.keyString "mysql_db"
  let mysqlPortc := (sec.keyInt "mysql_port").1
  let mysqlPortc := if mysqlPortc = 0 then 3306 else mysqlPortc
  let statsdHostc := sec.keyString "statsd_host"
  let statsdPortc := (sec.keyInt "stats_port").1
  let statsdPortc := if statsdPortc = 0 then 8125 else statsdPortc
  { mysqlHost := mysqlHostc, mysqlUser := mysqlUserc, mysqlPass := mysqlPassc,
    mysqlDb := mysqlDbc, mysqlPort := mysqlPortc,
    statsdHost := statsdHostc, statsdPort := statsdPortc }

/-- Body of the command branch of `configure` (src/mambo.go lines
205-216): the freq parse error is discarded, so an absent or invalid
freq yields 0; no validation is performed. -/
def readCommandSection (sec : IniSection) : command :=
  { key := sec.keyString "key",
    query := sec.keyString "query",
    freq := (sec.keyInt "freq").1 }

/-- The section loop of `configure` (src/mambo.go lines 178-218): skip
the unnamed DEFAULT section, the config section overwrites the
configuration, every other section appends a command. -/
def configureLoop : List IniSection → configuration × List command →
    configuration × List command
  | [], acc => acc
  | sec :: rest, acc =>
    configureLoop rest
      (if sec.name ≠ "DEFAULT" then
        if sec.name = "config" then (readConfigSection sec, acc.2)
        else (acc.1, acc.2 ++ [readCommandSection sec])
      else acc)

/-- Result of `configure`: either the process exited (`os.Exit` on an ini
load failure) or a configuration and command list were produced. -/
inductive ConfigureOutcome where
  | exited (code : Int)
  | loaded (cfg : configuration) (cmds : List command)

/-- `configure` of src/mambo.go (lines 167-220): `ini.Load` failure is
logged and the process exits with code 1; otherwise the section loop
runs from the zero configuration and the empty command list. -/
def configure (load : Except String (List IniSection)) : ConfigureOutcome :=
  match load with
  | Except.error _ => ConfigureOutcome.exited 1
  | Except.ok secs =>
    ConfigureOutcome.loaded (configureLoop secs (emptyConfiguration, [])).1
      (configureLoop secs (emptyConfiguration, [])).2

/-- Startup outcome of `main`: either the process terminated during
configuration load, or the pipeline is running with one controller per
command and the dispatcher loop entered. -/
inductive StartupOutcome where
  | exitedWith (code : Int)
  | running (cmds : List command)

/-- Startup phase of `main` (src/mambo.go lines 42-55): load the
configuration; when `configure` exits the process, no controller
goroutine and no dispatcher loop is ever started; otherwise one
controller per command is launched and the dispatcher loop is entered. -/
def mainStartup (load : Except String (List IniSection)) : StartupOutcome :=
  match configure load with
  | ConfigureOutcome.exited c => StartupOutcome.exitedWith c
  | ConfigureOutcome.loaded _ cmds => StartupOutcome.running cmds

/-- `mysqlURIBuilder` of src/mambo.go (lines 152-160): local-socket form
when the host is empty, networked form otherwise.  `fmt.Sprint` inserts
no separator here since every other operand is a string. -/
def mysqlURIBuilder (config : configuration) : String :=
  if config.mysqlHost = "" then
    config.mysqlUser ++ ":" ++ config.mysqlPass ++ "@" ++ "/" ++ config.mysqlDb
  else
    config.mysqlUser ++ ":" ++ config.mysqlPass ++ "@" ++ config.mysqlHost ++ ":" ++
      toString config.mysqlPort ++ "/" ++ config.mysqlDb

/-- `statsdURIBuilder` of src/mambo.go (lines 89-93). -/
def statsdURIBuilder (config : configuration) : String :=
  config.statsdHost ++ ":" ++ toString config.statsdPort

/-- Outcomes of the external database steps of one `mysqlWorker` call:
error message of `sql.Open`, `db.Ping` and `db.Prepare` when they fail,
and the row scan, which either fails or yields the scanned scalar as a
string. -/
structure DbEnv where
  openErr : Option String
  pingErr : Option String
  prepareErr : Option String
  scanOutcome : Except String String

/-- Observable effect of one `mysqlWorker` call: the error log lines and
the messages sent on the results channel. -/
structure WorkerEffect where
  logs : List String
  pushed : List String
deriving DecidableEq

/-- `mysqlWorker` of src/mambo.go (lines 121-145), straight-line as
written: `var result string` starts empty; every failing step only logs
its error and execution continues; at the end the message
`cmd.key ++ ":" ++ result` is unconditionally sent on the results
channel, with `result` still empty when the scan failed. -/
def mysqlWorker (config : configuration) (env : DbEnv) (cmd : command) :
    WorkerEffect :=
  let result0 : String := ""
  let _connecturi := mysqlURIBuilder config
  let logs1 : List String :=
    match env.openErr with
    | some e => [e]
    | none => []
  let logs2 :=
    match env.pingErr with
    | some e => logs1 ++ [e]
    | none => logs1
  let logs3 :=
    match env.prepareErr with
    | some e => logs2 ++ [e]
    | none => logs2
  let sr : List String × String :=
    match env.scanOutcome with
    | Except.error e => (logs3 ++ [e], result0)
    | Except.ok v => (logs3, v)
  let res := cmd.key ++ ":" ++ sr.2
  { logs := sr.1, pushed := [res] }

/-- Outcomes of the external statsd client steps of one `statsdSender`
call: error of `statsd.NewClient` and error of `client.Inc` when they
fail. -/
structure SinkEnv where
  clientErr : Option String
  incErr : Option String

/-- One call issued to the statsd sink. -/
inductive SinkCall where
  | inc (key : String) (value : Int) (rate : Rat)
deriving DecidableEq

/-- A Go run-time error: the failure mode of indexing past the end of a
slice, which terminates the process. -/
inductive GoRuntimeError where
  | indexOutOfRange
deriving DecidableEq

/-- Observable effect of one completed `statsdSender` call: the error log
lines and the calls issued to the sink. -/
structure SenderEffect where
  logs : List String
  calls : List SinkCall
deriving DecidableEq

/-- `statsdSender` of src/mambo.go (lines 98-115): create the client
(failure only logged), split the message on the colon, read element 0
and element 1 of the split — when the message holds no colon the index 1
access is a Go run-time error that crashes the process, modelled as the
`Except.error` branch — parse the value (failure logged, value 0 used),
and issue `client.Inc(key, value, 1.0)` (failure logged). -/
def statsdSender (env : SinkEnv) (msg : String) :
    Except GoRuntimeError SenderEffect :=
  let logs0 : List String :=
    match env.clientErr with
    | some e => [e]
    | none => []
  match goSplit ':' msg with
  | key :: v :: _ =>
    let pv := parseInt64 v
    let value : Int := pv.getD 0
    let logs1 :=
      match pv with
      | some _ => logs0
      | none => logs0 ++ ["strconv.ParseInt: parsing \"" ++ v ++ "\": invalid syntax"]
    let logs2 :=
      match env.incErr with
      | some e => logs1 ++ [e]
      | none => logs1
    Except.ok { logs := logs2, calls := [SinkCall.inc key value 1] }
  | _ => Except.error GoRuntimeError.indexOutOfRange

/-- Wire encoding of a Result (src/mambo.go line 142):
`res := fmt.Sprint(cmd.key, ":", result)`. -/
def encodeResult (key result : String) : String :=
  key ++ ":" ++ result

/-- Wire decoding of a Result as the dispatcher performs it
(src/mambo.go lines 104-106): split on the colon, element 0 is the name,
element 1 is parsed as the integer value; `none` when the split yields
fewer than two elements or the value fails to parse. -/
def decodeResult (msg : String) : Option (String × Int) :=
  match goSplit ':' msg with
  | key :: v :: _ =>
    match parseInt64 v with
    | some n => some (key, n)
    | none => none
  | _ => none

/-- Data-model invariant claimed of every probe: strictly positive
interval and non-empty metric name. -/
def probeInvariant (c : command) : Prop :=
  0 < c.freq ∧ c.key ≠ ""

instance (c : command) : Decidable (probeInvariant c) := by
  unfold probeInvariant
  infer_instance

namespace SrcDup

/-- `type configuration struct` of src/src/mambo.go (snake_case field
names). -/
structure configuration where
  mysql_host : String
  mysql_user : String
  mysql_pass : String
  mysql_db : String
  mysql_port : Int
  statsd_host : String
  statsd_port : Int
deriving DecidableEq

/-- `type command struct` of src/src/mambo.go. -/
structure command where
  key : String
  query : String
  freq : Int
deriving DecidableEq

/-- Zero value of the duplicate configuration struct. -/
def emptyConfiguration : configuration :=
  { mysql_host := "", mysql_user := "", mysql_pass := "", mysql_db := "",
    mysql_port := 0, statsd_host := "", statsd_port := 0 }

/-- Body of the `[config]` branch of `configure` in src/src/mambo.go
(lines 163-187).  The only behavioural difference from the top-level
implementation: the statsd port is read from the key named statsd_port
(not stats_port). -/
def readConfigSection (sec : IniSection) : configuration :=
  let mysql_hostc := sec.keyString "mysql_host"
  let mysql_userc := sec.keyString "mysql_user"
  let mysql_passc := sec.keyString "mysql_pass"
  let mysql_dbc := sec.keyString "mysql_db"
  let mysql_portc := (sec.keyInt "mysql_port").1
  let mysql_portc := if mysql_portc = 0 then 3306 else mysql_portc
  let statsd_hostc := sec.keyString "statsd_host"
  let statsd_portc := (sec.keyInt "statsd_port").1
  let statsd_portc := if statsd_portc = 0 then 8125 else statsd_portc
  { mysql_host := mysql_hostc, mysql_user := mysql_userc,
    mysql_pass := mysql_passc, mysql_db := mysql_dbc,
    mysql_port := mysql_portc,
    statsd_host := statsd_hostc, statsd_port := statsd_portc }

/-- Command branch of `configure` in src/src/mambo.go (lines 188-199). -/
def readCommandSection (sec : IniSection) : command :=
  { key := sec.keyString "key",
    query := sec.keyString "query",
    freq := (sec.keyInt "freq").1 }

/-- Section loop of `configure` in src/src/mambo.go (lines 160-201). -/
def configureLoop : List IniSection → configuration × List command →
    configuration × List command
  | [], acc => acc
  | sec :: rest, acc =>
    configureLoop rest
      (if sec.name ≠ "DEFAULT" then
        if sec.name = "config" then (readConfigSection sec, acc.2)
        else (acc.1, acc.2 ++ [readCommandSection sec])
      else acc)

end SrcDup

/-- Sample configuration: empty host, so the local-socket branch of the
uri builder applies. -/
def cfgLocal : configuration :=
  { mysqlHost := "", mysqlUser := "user1", mysqlPass := "pw",
    mysqlDb := "metrics", mysqlPort := 3306,
    statsdHost := "graph", statsdPort := 8125 }

/-- Sample configuration with a non-empty host and a non-default port. -/
def cfgNet : configuration :=
  { mysqlHost := "db1", mysqlUser := "user1", mysqlPass := "pw",
    mysqlDb := "metrics", mysqlPort := 3307,
    statsdHost := "graph", statsdPort := 8125 }

/-- Database environment in which open, ping and prepare succeed and the
row scan fails. -/
def scanFailEnv : DbEnv :=
  { openErr := none, pingErr := none, prepareErr := none,
    scanOutcome := Except.error "sql: no rows in result set" }

/-- Sample probe. -/
def probeQ1 : command :=
  { key := "q1", query := "SELECT gauge FROM t", freq := 1000 }

/-- Statsd environment in which client creation and the increment call
both succeed. -/
def sinkOkEnv : SinkEnv :=
  { clientErr := none, incErr := none }

/-- Ini file whose only probe section holds no keys at all. -/
def emptyProbeIni : List IniSection :=
  [{ name := "probe1", entries := [] }]

/-- Ini file with a config section and one fully specified probe. -/
def validProbeIni : List IniSection :=
  [{ name := "config", entries := [("statsd_host", "graph")] },
   { name := "replag",
     entries := [("key", "mysql.replag"), ("query", "SELECT 1"), ("freq", "500")] }]

/-- Ini config section with an explicit non-default mysql port and no
statsd port. -/
def portIni : IniSection :=
  { name := "config", entries := [("mysql_port", "3307")] }

/-- Ini config section whose two port values are present but not
parseable as integers. -/
def badPortIni : IniSection :=
  { name := "config", entries := [("mysql_port", "lots"), ("stats_port", "many")] }

/-- Ini file setting a non-default statsd port under the key the
src/src/mambo.go implementation reads. -/
def statsdPortIni : List IniSection :=
  [{ name := "config", entries := [("statsd_port", "9999")] }]

/-! ### Helper lemmas -/

/-- Splitting a list that holds no occurrence of the separator yields the
whole list as the single piece. -/
theorem splitOnChar_not_mem (sep : Char) (l : List Char) (h : sep ∉ l) :
    splitOnChar sep l = [l] := by
  induction l with
  | nil => rfl
  | cons c cs ih =>
    rw [List.mem_cons, not_or] at h
    obtain ⟨h1, h2⟩ := h
    rw [splitOnChar, if_neg (fun hce => h1 hce.symm), ih h2]

/-- Splitting a list of the shape prefix-separator-rest, with the prefix
free of the separator, yields the prefix followed by the split of the
rest. -/
theorem splitOnChar_append (sep : Char) (a b : List Char) (h : sep ∉ a) :
    splitOnChar sep (a ++ sep :: b) = a :: splitOnChar sep b := by
  induction a with
  | nil =>
    show splitOnChar sep (sep :: b) = [] :: splitOnChar sep b
    rw [splitOnChar, if_pos rfl]
  | cons c cs ih =>
    rw [List.mem_cons, not_or] at h
    obtain ⟨h1, h2⟩ := h
    show splitOnChar sep (c :: (cs ++ sep :: b)) = (c :: cs) :: splitOnChar sep b
    rw [splitOnChar, if_neg (fun hce => h1 hce.symm), ih h2]

/-- Every character consumed by a successful run of the digit loop is a
decimal digit. -/
theorem decDigitsAux_digits :
    ∀ (ds : List Char) (acc n : Nat), decDigitsAux ds acc = some n →
      ∀ c ∈ ds, ('0' ≤ c ∧ c ≤ '9') := by
  intro ds
  induction ds with
  | nil => intro acc n _ c hc; exact absurd hc (List.not_mem_nil c)
  | cons d rest ih =>
    intro acc n h c hc
    rw [decDigitsAux] at h
    by_cases hd : ('0' ≤ d ∧ d ≤ '9')
    · rw [if_pos hd] at h
      rcases List.mem_cons.mp hc with rfl | hc2
      · exact hd
      · exact ih _ n h c hc2
    · rw [if_neg hd] at h
      exact absurd h (by simp)

/-- The sign parser either leaves the list untouched or strips exactly
one leading sign character. -/
theorem parseSign_cases (l : List Char) :
    (parseSign l).2 = l ∨
      ∃ c, (c = '-' ∨ c = '+') ∧ l = c :: (parseSign l).2 := by
  unfold parseSign
  split
  · exact Or.inr ⟨'-', Or.inl rfl, rfl⟩
  · exact Or.inr ⟨'+', Or.inr rfl, rfl⟩
  · exact Or.inl rfl

/-- A string accepted by the integer parser holds no colon: all its
characters are an optional sign followed by decimal digits. -/
theorem parseInt64_no_colon (s : String) (v : Int) (h : parseInt64 s = some v) :
    ':' ∉ s.data := by
  simp only [parseInt64] at h
  intro hmem
  rcases hds : (parseSign s.data).2 with _ | ⟨d, ds⟩
  · rw [hds] at h; simp at h
  · rw [hds] at h
    rcases hdd : decDigitsAux (d :: ds) 0 with _ | n
    · rw [hdd] at h; simp at h
    · have hdig := decDigitsAux_digits (d :: ds) 0 n hdd
      rcases parseSign_cases s.data with hcase | ⟨c, hcs, hcons⟩
      · rw [hds] at hcase
        rw [← hcase] at hmem
        exact absurd (hdig ':' hmem) (by decide)
      · rw [hds] at hcons
        rw [hcons] at hmem
        rcases List.mem_cons.mp hmem with h1 | h2
        · rcases hcs with rfl | rfl
          · exact absurd h1 (by decide)
          · exact absurd h1 (by decide)
        · exact absurd (hdig ':' h2) (by decide)

/-- Soundness of the configure section loop: when every command section
of the remaining input supplies a positive freq and a non-empty key, and
the accumulated commands already satisfy the probe invariant, every
command produced by the loop satisfies it. -/
theorem configureLoop_commands_sound :
    ∀ (secs : List IniSection) (acc : configuration × List command),
      (∀ sec ∈ secs, sec.name ≠ "DEFAULT" → sec.name ≠ "config" →
        0 < (sec.keyInt "freq").1 ∧ sec.keyString "key" ≠ "") →
      (∀ c ∈ acc.2, probeInvariant c) →
      ∀ c ∈ (configureLoop secs acc).2, probeInvariant c := by
  intro secs
  induction secs with
  | nil => intro acc _ hacc c hc; exact hacc c hc
  | cons sec rest ih =>
    intro acc hsecs hacc c hc
    simp only [configureLoop] at hc
    refine ih _ (fun s hs hd hcfg => hsecs s (List.mem_cons_of_mem _ hs) hd hcfg)
      ?_ c hc
    split_ifs with h1 h2
    · exact hacc
    · intro d hd
      rcases List.mem_append.mp hd with hd2 | hd2
      · exact hacc d hd2
      · rw [List.mem_singleton.mp hd2]
        exact hsecs sec (List.mem_cons_self sec rest) h1 h2
    · exact hacc

/-! ### Claim theorems -/

/-- Claim C1 (code bug evidence): with a database environment in which
connection, ping and preparation succeed but the row scan fails,
`mysqlWorker` logs the scan error and nevertheless pushes the partial
Result "q1:" (probe name with an empty value) onto the results channel —
the claim (and the spec) demand that nothing be pushed onto the Fan-In
for a failed tick. -/
theorem mysqlWorker_pushes_after_failure :
    (mysqlWorker cfgLocal scanFailEnv probeQ1).pushed = ["q1:"] ∧
    (mysqlWorker cfgLocal scanFailEnv probeQ1).logs =
      ["sql: no rows in result set"] := by
  decide

/-- Claim C2 (counterexample): consuming the single message "banana",
which holds no colon separator, does not make the Dispatcher log and
proceed — the access to element 1 of the split is a Go run-time
index-out-of-range error that terminates the Dispatcher loop (and the
process). -/
theorem statsdSender_crash_without_separator :
    statsdSender sinkOkEnv "banana" =
      Except.error GoRuntimeError.indexOutOfRange := rfl

/-- Claim C2 (amended): for every message that holds at least one colon
separator — which includes every message the Query Executor can produce —
`statsdSender` completes normally whatever the decode or sink failures:
errors are logged and the Dispatcher proceeds to the next message. -/
theorem statsdSender_no_crash_with_separator (env : SinkEnv) (msg : String)
    (h : 2 ≤ (goSplit ':' msg).length) :
    ∃ eff, statsdSender env msg = Except.ok eff := by
  cases hsplit : goSplit ':' msg with
  | nil => rw [hsplit] at h; simp at h
  | cons k tl =>
    cases tl with
    | nil => rw [hsplit] at h; simp at h
    | cons v rest =>
      unfold statsdSender
      rw [hsplit]
      exact ⟨_, rfl⟩

/-- Claim C2 witness: the message "replag:abc" has a separator but an
unparsable value, and the Dispatcher still completes normally. -/
theorem statsdSender_no_crash_with_separator_witness :
    ∃ eff, statsdSender sinkOkEnv "replag:abc" = Except.ok eff :=
  statsdSender_no_crash_with_separator sinkOkEnv "replag:abc" (by decide)

/-- Claim C3: the data-source connection-string builder returns exactly
user:credential@/database when the configured host is empty, and exactly
user:credential@host:port/database when it is non-empty. -/
theorem mysqlURIBuilder_shape (cfg : configuration) :
    (cfg.mysqlHost = "" →
      mysqlURIBuilder cfg =
        cfg.mysqlUser ++ ":" ++ cfg.mysqlPass ++ "@/" ++ cfg.mysqlDb) ∧
    (cfg.mysqlHost ≠ "" →
      mysqlURIBuilder cfg =
        cfg.mysqlUser ++ ":" ++ cfg.mysqlPass ++ "@" ++ cfg.mysqlHost ++ ":" ++
          toString cfg.mysqlPort ++ "/" ++ cfg.mysqlDb) := by
  constructor
  · intro h
    unfold mysqlURIBuilder
    rw [if_pos h,
      String.append_assoc (cfg.mysqlUser ++ ":" ++ cfg.mysqlPass) "@" "/"]
    have hlit : ("@" : String) ++ "/" = "@/" := rfl
    rw [hlit]
  · intro h
    unfold mysqlURIBuilder
    rw [if_neg h]

/-- Claim C3 witness: concrete local-socket and networked
configurations evaluate to the exact connection strings. -/
theorem mysqlURIBuilder_shape_witness :
    mysqlURIBuilder cfgLocal = "user1:pw@/metrics" ∧
    mysqlURIBuilder cfgNet = "user1:pw@db1:3307/metrics" :=
  ⟨((mysqlURIBuilder_shape cfgLocal).1 (by decide)).trans (by decide),
   ((mysqlURIBuilder_shape cfgNet).2 (by decide)).trans (by decide)⟩

/-- Claim C4 (counterexample): for the Result with name "a:b" and value
42, encoding and then decoding does not return the original pair — the
decoder splits at the first colon, reads the name "a" and fails to parse
"b" as the value. -/
theorem encodeResult_roundtrip_fails_on_colon_name :
    decodeResult (encodeResult "a:b" "42") ≠ some ("a:b", 42) := by
  decide

/-- Claim C4 (amended): for every Result whose name holds no colon and
whose value string parses as an integer — which covers every value the
Query Executor forwards for dispatch — encoding as name-colon-value and
decoding by splitting on the colon returns the identical pair. -/
theorem encodeResult_decodeResult_roundtrip (name vs : String) (value : Int)
    (hname : ':' ∉ name.data) (hv : parseInt64 vs = some value) :
    decodeResult (encodeResult name vs) = some (name, value) := by
  have hvs : ':' ∉ vs.data := parseInt64_no_colon vs value hv
  have hdata : (encodeResult name vs).data = name.data ++ ':' :: vs.data := by
    show (name ++ ":" ++ vs).data = name.data ++ ':' :: vs.data
    rw [String.data_append, String.data_append, List.append_assoc]
    rfl
  unfold decodeResult goSplit
  rw [hdata, splitOnChar_append ':' name.data vs.data hname,
    splitOnChar_not_mem ':' vs.data hvs]
  show (match parseInt64 vs with
        | some n => some (name, n)
        | none => none) = some (name, value)
  rw [hv]

/-- Claim C4 witness: the pair of the claim round-trips exactly. -/
theorem encodeResult_decodeResult_roundtrip_witness :
    decodeResult (encodeResult "mysql.server.query1" "42") =
      some ("mysql.server.query1", 42) :=
  encodeResult_decodeResult_roundtrip "mysql.server.query1" "42" 42
    (by decide) (by decide)

/-- Claim C5: during configuration load a parsed port value of 0 (the
value an absent key reads as) is mapped to the default 3306 for the data
source and 8125 for the sink, and any non-zero parsed port value is
placed in the configuration unchanged. -/
theorem configure_port_defaults (sec : IniSection) :
    ((sec.keyInt "mysql_port").1 = 0 →
      (readConfigSection sec).mysqlPort = 3306) ∧
    ((sec.keyInt "mysql_port").1 ≠ 0 →
      (readConfigSection sec).mysqlPort = (sec.keyInt "mysql_port").1) ∧
    ((sec.keyInt "stats_port").1 = 0 →
      (readConfigSection sec).statsdPort = 8125) ∧
    ((sec.keyInt "stats_port").1 ≠ 0 →
      (readConfigSection sec).statsdPort = (sec.keyInt "stats_port").1) := by
  refine ⟨fun h => ?_, fun h => ?_, fun h => ?_, fun h => ?_⟩ <;>
    simp [readConfigSection, h]

/-- Claim C5 witness: a config section with mysql_port 3307 and no
stats_port yields mysql port 3307 and the default statsd port 8125. -/
theorem configure_port_defaults_witness :
    (readConfigSection portIni).mysqlPort = 3307 ∧
    (readConfigSection portIni).statsdPort = 8125 :=
  ⟨((configure_port_defaults portIni).2.1 (by decide)).trans (by decide),
   (configure_port_defaults portIni).2.2.1 (by decide)⟩

/-- Claim C6 (counterexample): the loader performs no validation — a
configuration file whose only probe section has no keys loads
successfully and produces a command with empty key and freq 0, violating
the claimed invariant. -/
theorem configure_loader_skips_validation :
    ¬ ∀ c ∈ (configureLoop emptyProbeIni (emptyConfiguration, [])).2,
        probeInvariant c := by
  decide

/-- Claim C6 (amended): every command produced by configuration load
satisfies the invariant (positive freq, non-empty key) provided the
configuration file itself supplies, in every non-config section, a freq
value parsing to a positive integer and a non-empty key value; the
loader copies the values verbatim and enforces nothing. -/
theorem configure_commands_invariant (secs : List IniSection)
    (h : ∀ sec ∈ secs, sec.name ≠ "DEFAULT" → sec.name ≠ "config" →
      0 < (sec.keyInt "freq").1 ∧ sec.keyString "key" ≠ "") :
    ∀ c ∈ (configureLoop secs (emptyConfiguration, [])).2, probeInvariant c :=
  configureLoop_commands_sound secs (emptyConfiguration, []) h
    (fun c hc => absurd hc (List.not_mem_nil c))

/-- Claim C6 witness: a file with a config section and one fully
specified probe yields a command satisfying the invariant. -/
theorem configure_commands_invariant_witness :
    probeInvariant { key := "mysql.replag", query := "SELECT 1", freq := 500 } :=
  configure_commands_invariant validProbeIni (by decide)
    { key := "mysql.replag", query := "SELECT 1", freq := 500 } (by decide)

/-- Claim C7: when the configuration file cannot be loaded, startup
terminates the process with exit code 1 (non-zero) and neither a
controller nor the dispatcher loop is started. -/
theorem startup_exits_on_load_failure (e : String) :
    mainStartup (Except.error e) = StartupOutcome.exitedWith 1 ∧
    (1 : Int) ≠ 0 :=
  ⟨rfl, by decide⟩

/-- Claim C7 witness: a concrete load failure. -/
theorem startup_exits_on_load_failure_witness :
    mainStartup (Except.error "open mambo.cfg: no such file or directory") =
      StartupOutcome.exitedWith 1 ∧ (1 : Int) ≠ 0 :=
  startup_exits_on_load_failure "open mambo.cfg: no such file or directory"

/-- Claim C8: for every message whose split on the colon is exactly a
name and an integer-parsing value, the Dispatcher completes normally and
issues exactly one increment of that name by that value at sample rate
1. -/
theorem statsdSender_single_inc (env : SinkEnv) (msg key v : String)
    (value : Int)
    (hsplit : goSplit ':' msg = [key, v])
    (hv : parseInt64 v = some value) :
    ∃ eff, statsdSender env msg = Except.ok eff ∧
      eff.calls = [SinkCall.inc key value 1] := by
  unfold statsdSender
  rw [hsplit]
  refine ⟨_, rfl, ?_⟩
  simp [hv]

/-- Claim C8 witness: the message of the spec example issues exactly one
increment of mysql.server.query1 by 42 at rate 1. -/
theorem statsdSender_single_inc_witness :
    ∃ eff, statsdSender sinkOkEnv "mysql.server.query1:42" = Except.ok eff ∧
      eff.calls = [SinkCall.inc "mysql.server.query1" 42 1] :=
  statsdSender_single_inc sinkOkEnv "mysql.server.query1:42"
    "mysql.server.query1" "42" 42 (by decide) (by decide)

/-- Claim C9: the two near-duplicate configure implementations disagree —
on a file setting statsd_port to 9999, the top-level implementation
(reading the key stats_port) falls back to the default 8125 while the
src/src implementation (reading statsd_port) returns 9999. -/
theorem configure_statsd_key_mismatch :
    (configureLoop statsdPortIni (emptyConfiguration, [])).1.statsdPort = 8125 ∧
    (SrcDup.configureLoop statsdPortIni
      (SrcDup.emptyConfiguration, [])).1.statsd_port = 9999 ∧
    (configureLoop statsdPortIni (emptyConfiguration, [])).1.statsdPort ≠
      (SrcDup.configureLoop statsdPortIni
        (SrcDup.emptyConfiguration, [])).1.statsd_port := by
  decide

/-- Claim C10: a port value that is present but unparsable reads as 0
with an ignored error, so the defaults 3306 and 8125 are applied, and a
successfully loaded file never makes startup fail. -/
theorem configure_port_parse_error_defaults (sec : IniSection)
    (secs : List IniSection)
    (hm : parseInt64 (sec.keyString "mysql_port") = none)
    (hs : parseInt64 (sec.keyString "stats_port") = none) :
    (readConfigSection sec).mysqlPort = 3306 ∧
    (readConfigSection sec).statsdPort = 8125 ∧
    configure (Except.ok secs) =
      ConfigureOutcome.loaded (configureLoop secs (emptyConfiguration, [])).1
        (configureLoop secs (emptyConfiguration, [])).2 := by
  refine ⟨?_, ?_, rfl⟩ <;> simp [readConfigSection, IniSection.keyInt, hm, hs]

/-- Claim C10 witness: a config section with unparsable port values
yields both defaults. -/
theorem configure_port_parse_error_defaults_witness :
    (readConfigSection badPortIni).mysqlPort = 3306 ∧
    (readConfigSection badPortIni).statsdPort = 8125 :=
  ⟨(configure_port_parse_error_defaults badPortIni [] (by decide) (by decide)).1,
   (configure_port_parse_error_defaults badPortIni [] (by decide) (by decide)).2.1⟩

end Mambo
